import Mathlib

/-!
Verification development for the `stronghold` exchange connector
(`js/stronghold.js`): a shallow embedding of its signing, error-handling
and normalization code, with theorems checking the specification's claims.

Modelling conventions:
* JS numbers appear as `Option ℚ`, where `none` stands for an absent value
  (`undefined`) or a failed numeric parse (`NaN`); venue JSON payload fields
  are `Option String` (absent = `undefined`).
* Helper functions inherited from the base `Exchange` class (HMAC, base64,
  URL-encoding, JSON serialization, ISO-8601 parsing, currency-code
  canonicalization) are not part of the source file; they are collected in a
  `Collab` record passed to each operation, so theorems quantify over every
  possible implementation of those collaborators unless a closed statement
  forces one concrete instantiation (`collab0`).
-/

namespace Stronghold

/-- Left brace character, kept out of string literals. -/
def lbrace : Char := Char.ofNat 123

/-- Right brace character, kept out of string literals. -/
def rbrace : Char := Char.ofNat 125

/-- Decimal digits of a char list read as a natural number. -/
def digitsToNat (cs : List Char) : Nat :=
  cs.foldl (fun n c => 10 * n + (c.toNat - 48)) 0

/-- Model of JS `parseFloat` on the decimal strings this venue emits:
optional sign, integer digits, optional fractional digits; the longest valid
prefix is consumed, and `none` models `NaN` (no digits found at all).
The value `i.f` is the rational `(i*10^k + f) / 10^k`. -/
def parseDecimal (s : String) : Option ℚ :=
  let cs := s.data
  let neg : Bool := cs.take 1 = ['-']
  let cs1 := if cs.take 1 = ['-'] || cs.take 1 = ['+'] then cs.drop 1 else cs
  let intPart := cs1.takeWhile Char.isDigit
  let rest := cs1.dropWhile Char.isDigit
  let fracPart := if rest.take 1 = ['.'] then (rest.drop 1).takeWhile Char.isDigit else []
  if intPart.isEmpty && fracPart.isEmpty then none
  else
    let n : Int := (digitsToNat intPart : Int) * 10 ^ fracPart.length + (digitsToNat fracPart : Int)
    some (mkRat (if neg then -n else n) (10 ^ fracPart.length))

/-- Collaborator helpers inherited from the base `Exchange` class.
Modelled from the spec: the spec treats URL-encoding, JSON serialization,
the 256-bit HMAC (returned base64-encoded), base64 decoding of the secret,
ISO-8601 parsing and currency-code canonicalization as external collaborators
(spec section 6), so they are abstract parameters here. -/
structure Collab where
  urlencode : List (String × String) → String
  json : List (String × String) → String
  hmacSha256Base64 : String → String → String
  base64ToBinary : String → String
  parse8601 : String → Option Int
  commonCurrencyCode : String → String

/-- Concrete collaborator instantiation used in closed statements. -/
def collab0 : Collab where
  urlencode q := String.intercalate "&" (q.map (fun kv => kv.1 ++ "=" ++ kv.2))
  json q := "J:" ++ String.intercalate "," (q.map (fun kv => kv.1 ++ ":" ++ kv.2))
  hmacSha256Base64 msg key := "MAC." ++ key ++ "." ++ msg
  base64ToBinary s := "BIN." ++ s
  parse8601 s := some (Int.ofNat s.length)
  commonCurrencyCode s := s

/-- Credential set of the exchange instance (`apiKey`, `secret`, `password`);
`none` models a missing credential, which `checkRequiredCredentials` rejects. -/
structure Credentials where
  apiKey : Option String
  secret : Option String
  password : Option String

/-- Names of the path parameters, i.e. the substrings of the form
brace-name-brace, in route-template order (base `Exchange.extractParams`). -/
def extractParamsAux : List Char → Option (List Char) → List String
  | [], _ => []
  | c :: rest, none =>
      if c = lbrace then extractParamsAux rest (some [])
      else extractParamsAux rest none
  | c :: rest, some acc =>
      if c = rbrace then String.mk acc :: extractParamsAux rest none
      else extractParamsAux rest (some (acc ++ [c]))

/-- Path-parameter names of a route template (base `Exchange.extractParams`). -/
def extractParams (path : String) : List String :=
  extractParamsAux path.data none

/-- Substitution of brace-delimited placeholders by the corresponding values
from `params`, leaving unknown placeholders as-is (base `Exchange.implodeParams`). -/
def implodeParamsAux (params : List (String × String)) :
    List Char → Option (List Char) → List Char
  | [], none => []
  | [], some acc => lbrace :: acc
  | c :: rest, none =>
      if c = lbrace then implodeParamsAux params rest (some [])
      else c :: implodeParamsAux params rest none
  | c :: rest, some acc =>
      if c = rbrace then
        (match params.lookup (String.mk acc) with
          | some v => v.data
          | none => lbrace :: (acc ++ [rbrace])) ++ implodeParamsAux params rest none
      else implodeParamsAux params rest (some (acc ++ [c]))

/-- Route template with its path parameters substituted (base `Exchange.implodeParams`). -/
def implodeParams (path : String) (params : List (String × String)) : String :=
  String.mk (implodeParamsAux params path.data none)

/-- Copy of `params` with the given keys removed (base `Exchange.omit`). -/
def omitKeys (params : List (String × String)) (keys : List String) : List (String × String) :=
  params.filter (fun kv => !(keys.contains kv.1))

/-- API version segment from `describe` (`'version': 'v1'`). -/
def version : String := "v1"

/-- Base URL table `urls.api` from `describe`; both the public and the
private entry hold the same host. -/
def apiUrl (api : String) : String :=
  if api = "private" then "https://api.stronghold.co" else "https://api.stronghold.co"

/-- Request record returned by `sign`. -/
structure SignedRequest where
  url : String
  method : String
  body : Option String
  headers : Option (List (String × String))
deriving DecidableEq

/-- Failure raised by `checkRequiredCredentials` when a required credential
is missing. -/
inductive SignError
  | authenticationError
deriving DecidableEq

/-- Shallow embedding of `stronghold.sign`.  The nonce source
(`this.nonce()`, i.e. clock seconds) is the explicit argument `now`. -/
def sign (c : Collab) (cred : Credentials) (now : ℕ) (path api method : String)
    (params : List (String × String)) (headers : Option (List (String × String)))
    (body : Option String) : Except SignError SignedRequest :=
  let request := "/" ++ version ++ "/" ++ implodeParams path params
  let query := omitKeys params (extractParams path)
  let url0 := apiUrl api ++ request
  let urlBody : String × Option String :=
    if method = "GET" then
      if query.length ≠ 0 then (url0 ++ "?" ++ c.urlencode query, body)
      else (url0, some (c.json query))
    else (url0, body)
  if api = "private" then
    match cred.apiKey, cred.secret, cred.password with
    | some apiKey, some secret, some password =>
        let timestamp := toString now
        let payload :=
          match urlBody.2 with
          | some b => timestamp ++ method ++ request ++ b
          | none => timestamp ++ method ++ request
        Except.ok
          { url := urlBody.1, method := method, body := urlBody.2,
            headers := some
              [("SH-CRED-ID", apiKey),
               ("SH-CRED-SIG", c.hmacSha256Base64 payload (c.base64ToBinary secret)),
               ("SH-CRED-TIME", timestamp),
               ("SH-CRED-PASS", password),
               ("Content-Type", "application/json")] }
    | _, _, _ => Except.error SignError.authenticationError
  else
    Except.ok { url := urlBody.1, method := method, body := urlBody.2, headers := headers }

/-- Signing payload exactly as the claim words it: the decimal string of the
nonce, then the HTTP method name, then the request path, followed by the
serialized body if and only if a body is present. -/
def specPayload (nonce : ℕ) (method requestPath : String) (body : Option String) : String :=
  match body with
  | some b => toString nonce ++ method ++ requestPath ++ b
  | none => toString nonce ++ method ++ requestPath

/-- Classified error kinds thrown by this connector (`base/errors` classes
referenced by `stronghold.js`); `exchangeError` is the generic venue error. -/
inductive VenueError
  | invalidNonce
  | authenticationError
  | accountSuspended
  | insufficientFunds
  | exchangeError
deriving DecidableEq

/-- Fixed error-code table from `describe.exceptions`. -/
def exceptions : List (String × VenueError) :=
  [("CREDENTIAL_MISSING", VenueError.authenticationError),
   ("CREDENTIAL_INVALID", VenueError.authenticationError),
   ("CREDENTIAL_REVOKED", VenueError.accountSuspended),
   ("CREDENTIAL_NO_IDENTITY", VenueError.authenticationError),
   ("PASSPHRASE_INVALID", VenueError.authenticationError),
   ("SIGNATURE_INVALID", VenueError.authenticationError),
   ("TIME_INVALID", VenueError.invalidNonce),
   ("BYPASS_INVALID", VenueError.authenticationError),
   ("INSUFFICIENT_FUNDS", VenueError.insufficientFunds)]

/-- Decoded response envelope as far as `handleErrors` inspects it:
the `success` flag and the optional `errorCode` string. -/
structure Envelope where
  success : Option Bool
  errorCode : Option String
deriving DecidableEq

/-- Shallow embedding of `stronghold.handleErrors`; `none` for `response`
models an undecodable body, on which classification is skipped (fallback to
the base error handler). A JS value is truthy in the `!success` test exactly
when it is the boolean `true` here. -/
def handleErrors (response : Option Envelope) : Except VenueError Unit :=
  match response with
  | none => Except.ok ()
  | some r =>
      match r.errorCode.bind (fun ec => exceptions.lookup ec) with
      | some e => Except.error e
      | none => if r.success = some true then Except.ok () else Except.error VenueError.exchangeError

/-- JS value as stored in the `side` slot of a parsed trade: the object
branch stores a string (or `undefined`), the tuple branch stores the result
of `parseFloat` (a number, `none` modelling `NaN`). -/
inductive JsVal
  | undef
  | str (s : String)
  | num (q : Option ℚ)
deriving DecidableEq

/-- Private (object-shaped) raw trade from the venue. -/
structure RawTradeObj where
  id : Option String
  orderId : Option String
  marketId : Option String
  side : Option String
  size : Option String
  price : Option String
  maker : Option Bool
  executedAt : Option String

/-- Raw trade: either the public 4-tuple shape or the private object shape;
`isArray` discriminates the two in the source. -/
inductive RawTrade
  | tuple (p a s t : String)
  | obj (o : RawTradeObj)

/-- Canonical trade record produced by `parseTrade` (the `info`, `datetime`
and `fee` fields carry no claim-relevant content and are omitted). -/
structure Trade where
  id : Option String
  timestamp : Option Int
  symbol : Option String
  order : Option String
  side : JsVal
  price : Option ℚ
  amount : Option ℚ
  cost : Option ℚ
  takerOrMaker : Option String
deriving DecidableEq

/-- Coercion of an optional string field into the `side` slot. -/
def optStr : Option String → JsVal
  | some s => JsVal.str s
  | none => JsVal.undef

/-- Shallow embedding of `stronghold.parseTrade`; `marketsById` models
`this.markets_by_id` as a map from venue market id to canonical symbol, and
`market` is the optional market argument (its symbol). -/
def parseTrade (c : Collab) (marketsById : List (String × String))
    (market : Option String) (trade : RawTrade) : Trade :=
  match trade with
  | RawTrade.tuple p a s t =>
      { id := none, order := none, takerOrMaker := none, cost := none,
        price := parseDecimal p,
        amount := parseDecimal a,
        side := JsVal.num (parseDecimal s),
        timestamp := c.parse8601 t,
        symbol := market }
  | RawTrade.obj o =>
      { id := o.id,
        price := o.price.bind parseDecimal,
        amount := o.size.bind parseDecimal,
        side := optStr o.side,
        timestamp := o.executedAt.bind c.parse8601,
        order := o.orderId,
        takerOrMaker := some (if o.maker = some true then "maker" else "taker"),
        cost := none,
        symbol := o.marketId.bind (fun m => marketsById.lookup m) }

/-- Raw order object from the venue as far as `parseOrder` reads it. -/
structure RawOrder where
  id : Option String
  placedAt : Option String
  side : Option String
  size : Option String
  sizeFilled : Option String
  price : Option String

/-- Canonical order record produced by `parseOrder`. -/
structure OrderRec where
  id : Option String
  symbol : Option String
  datetime : Option String
  timestamp : Option Int
  side : Option String
  amount : Option ℚ
  filled : Option ℚ
  remaining : Option ℚ
  price : Option ℚ
deriving DecidableEq

/-- JS subtraction on possibly-missing numbers: if either operand is
`undefined` or `NaN` the result is `NaN` (modelled `none`). -/
def jsSub : Option ℚ → Option ℚ → Option ℚ
  | some a, some b => some (a - b)
  | _, _ => none

/-- Shallow embedding of `stronghold.parseOrder`. -/
def parseOrder (c : Collab) (market : Option String) (o : RawOrder) : OrderRec :=
  let amount := o.size.bind parseDecimal
  let filled := o.sizeFilled.bind parseDecimal
  { id := o.id,
    symbol := market,
    datetime := o.placedAt,
    timestamp := o.placedAt.bind c.parse8601,
    side := o.side,
    amount := amount,
    filled := filled,
    remaining := jsSub amount filled,
    price := o.price.bind parseDecimal }

/-- Leading segment of a venue asset id before the first slash separator
(JS `assetId.split('/')[0]`). -/
def leadingSegment (s : String) : String :=
  String.mk (s.data.takeWhile (fun ch => ch ≠ '/'))

/-- Raw per-asset balance entry from the venue account response. -/
structure RawBalanceEntry where
  assetId : String
  amount : Option String
  availableForTrade : Option String

/-- Normalized per-asset balance account. -/
structure BalanceAccount where
  total : ℚ
  available : ℚ
  free : ℚ
deriving DecidableEq

/-- Shallow embedding of the per-entry loop body of `stronghold.fetchBalance`:
canonical code paired with the derived account; `safeFloat` with default
`0.0` maps absent or unparsable fields to `0`. -/
def parseBalanceEntry (c : Collab) (entry : RawBalanceEntry) : String × BalanceAccount :=
  let code := c.commonCurrencyCode (leadingSegment entry.assetId)
  let total := (entry.amount.bind parseDecimal).getD 0
  let available := (entry.availableForTrade.bind parseDecimal).getD 0
  (code, { total := total, available := available, free := total - available })

/-- Raw currency listing entry from the venue assets response. -/
structure RawCurrency where
  id : Option String
  code : Option String
  displayDecimalsFull : Option Int

/-- Normalized currency record. -/
structure CurrencyRec where
  code : Option String
  id : Option String
  precision : Option Int
deriving DecidableEq

/-- Shallow embedding of the per-entry loop body of
`stronghold.fetchCurrencies`. -/
def parseCurrencyEntry (c : Collab) (entry : RawCurrency) : CurrencyRec :=
  let currencyId := entry.code
  { code := currencyId.map c.commonCurrencyCode,
    id := currencyId,
    precision := entry.displayDecimalsFull }

/-- Mutable options bag of the exchange instance, as far as venue selection
is concerned: the `venueId` field every request builder reads, and the
`venues` value. In `describe` the latter is the JS array
`['trade-public', 'sandbox-public']`; since `setSandboxMode` addresses it
with arbitrary string keys, it is modelled as a JS object: an association
list from key to stored value (a stored `none` is a stored `undefined`). -/
structure StrongholdOptions where
  venueId : String
  venues : List (String × Option String)
deriving DecidableEq

/-- JS property read: missing keys give `undefined`. -/
def jsGet (m : List (String × Option String)) (k : String) : Option String :=
  (m.lookup k).getD none

/-- JS property write: assignment creates the key if missing (also when the
assigned value is `undefined`). -/
def jsSet (m : List (String × Option String)) (k : String) (v : Option String) :
    List (String × Option String) :=
  if (m.lookup k).isSome then m.map (fun kv => if kv.1 = k then (k, v) else kv)
  else m ++ [(k, v)]

/-- JS `in` test: key membership, regardless of the stored value. -/
def jsHasKey (m : List (String × Option String)) (k : String) : Bool :=
  (m.lookup k).isSome

/-- Venue-selection slice of the initial `options` from `describe`:
`venueId` is `'trade-public'` and `venues` is the two-element array, whose
JS keys are the index strings. -/
def initialOptions : StrongholdOptions :=
  { venueId := "trade-public",
    venues := [("0", some "trade-public"), ("1", some "sandbox-public")] }

/-- Shallow embedding of `stronghold.setSandboxMode`. -/
def setSandboxMode (enabled : Bool) (opts : StrongholdOptions) : StrongholdOptions :=
  if enabled then
    let v1 := jsSet opts.venues "backup" (jsGet opts.venues "main")
    let v2 := jsSet v1 "main" (jsGet v1 "sandbox")
    { opts with venues := v2 }
  else
    if jsHasKey opts.venues "backup" then
      { opts with venues := jsSet opts.venues "main" (jsGet opts.venues "backup") }
    else opts

/-- Venue identifier that every request builder reads
(`this.options['venueId']` in `fetchMarkets`, `fetchCurrencies`,
`fetchOrderBook`, `fetchTrades`, `createOrder`, `cancelOrder`,
`fetchBalance`, ...). -/
def requestVenueId (opts : StrongholdOptions) : String :=
  opts.venueId

/-- Body actually carried by the request `sign` builds: the incoming body,
except that a GET whose remaining query set is empty gets the query
serialized as a JSON body. -/
def effectiveBody (c : Collab) (path method : String) (params : List (String × String))
    (body : Option String) : Option String :=
  let query := omitKeys params (extractParams path)
  if method = "GET" then
    if query.length ≠ 0 then body else some (c.json query)
  else body

/-- URL actually carried by the request `sign` builds: the host, the
version-prefixed substituted path, and, for a GET with a non-empty
remaining query set, the URL-encoded query. -/
def effectiveUrl (c : Collab) (api path method : String)
    (params : List (String × String)) : String :=
  let request := "/" ++ version ++ "/" ++ implodeParams path params
  let query := omitKeys params (extractParams path)
  let url0 := apiUrl api ++ request
  if method = "GET" then
    if query.length ≠ 0 then url0 ++ "?" ++ c.urlencode query else url0
  else url0

/-- Complete credential set used in closed statements. -/
def cred0 : Credentials :=
  { apiKey := some "KID", secret := some "SEC", password := some "PW" }

/-- Unfolding lemma for `sign` on a private call with a complete credential
set: the result is the effective URL and body together with the five
authentication headers, whose signature is the MAC of the payload described
by `specPayload`. -/
theorem sign_private_unfold (c : Collab) (k s p : String) (now : ℕ) (path method : String)
    (params : List (String × String)) (headers : Option (List (String × String)))
    (body : Option String) :
    sign c ⟨some k, some s, some p⟩ now path "private" method params headers body
      = Except.ok
          { url := effectiveUrl c "private" path method params,
            method := method,
            body := effectiveBody c path method params body,
            headers := some
              [("SH-CRED-ID", k),
               ("SH-CRED-SIG",
                  c.hmacSha256Base64
                    (specPayload now method ("/" ++ version ++ "/" ++ implodeParams path params)
                      (effectiveBody c path method params body))
                    (c.base64ToBinary s)),
               ("SH-CRED-TIME", toString now),
               ("SH-CRED-PASS", p),
               ("Content-Type", "application/json")] } := by
  by_cases hm : method = "GET"
  · subst hm
    by_cases hq : (omitKeys params (extractParams path)).length = 0 <;>
      simp [sign, effectiveUrl, effectiveBody, specPayload, hq]
  · simp [sign, effectiveUrl, effectiveBody, specPayload, hm]

/-- Unfolding lemma for `sign` on a public call: no credential check, no
authentication headers; the headers argument is passed through. -/
theorem sign_public_unfold (c : Collab) (cred : Credentials) (now : ℕ) (path method : String)
    (params : List (String × String)) (headers : Option (List (String × String)))
    (body : Option String) :
    sign c cred now path "public" method params headers body
      = Except.ok
          { url := effectiveUrl c "public" path method params,
            method := method,
            body := effectiveBody c path method params body,
            headers := headers } := by
  by_cases hm : method = "GET"
  · subst hm
    by_cases hq : (omitKeys params (extractParams path)).length = 0 <;>
      simp [sign, effectiveUrl, effectiveBody, hq]
  · simp [sign, effectiveUrl, effectiveBody, hm]

/-- C1: for every private call (all credentials present), the signing
payload is the concatenation, in this exact order, of the decimal string of
the nonce, the HTTP method name, and the version-prefixed request path with
its path parameters substituted, followed by the serialized body if and only
if a body is present; the signature is the base64 HMAC-SHA256 of that
payload keyed by the base64-decoded secret; and the headers carry the
credential id, the signature, the nonce and the passphrase. -/
theorem sign_private_payload_signature_headers (c : Collab) (k s p : String) (now : ℕ)
    (path method : String) (params : List (String × String))
    (headers : Option (List (String × String))) (body : Option String) :
    ∃ r : SignedRequest,
      sign c ⟨some k, some s, some p⟩ now path "private" method params headers body
          = Except.ok r ∧
        r.headers = some
          [("SH-CRED-ID", k),
           ("SH-CRED-SIG",
              c.hmacSha256Base64
                (specPayload now method
                  ("/" ++ version ++ "/" ++ implodeParams path params) r.body)
                (c.base64ToBinary s)),
           ("SH-CRED-TIME", toString now),
           ("SH-CRED-PASS", p),
           ("Content-Type", "application/json")] :=
  ⟨_, sign_private_unfold c k s p now path method params headers body, rfl⟩

/-- C10: for every call of the signer with api set to public, the call
succeeds without any credential-presence check (the credential set is
arbitrary, including fully missing) and the returned request's headers are
exactly the headers argument passed in. -/
theorem sign_public_headers_passthrough (c : Collab) (cred : Credentials) (now : ℕ)
    (path method : String) (params : List (String × String))
    (headers : Option (List (String × String))) (body : Option String) :
    ∃ r : SignedRequest,
      sign c cred now path "public" method params headers body = Except.ok r ∧
        r.headers = headers :=
  ⟨_, sign_public_unfold c cred now path method params headers body, rfl⟩

/-- C4: counter-evidence for the body rule. On a private POST call whose
remaining query set is non-empty (a createOrder-shaped request, with the
incoming body absent as in every request this connector builds), the code
leaves the body absent and the URL without the query — the remaining query
parameters are silently dropped instead of being serialized as a JSON body
as the claim states. -/
theorem sign_post_query_dropped :
    (sign collab0 cred0 7 "venues/\x7bvenueId\x7d/accounts/\x7baccountId\x7d/orders"
        "private" "POST"
        [("venueId", "trade-public"), ("accountId", "A1"), ("side", "buy"), ("size", "1")]
        none none).toOption.map (fun r => (r.body, r.url))
      = some ((none : Option String),
          "https://api.stronghold.co/v1/venues/trade-public/accounts/A1/orders") ∧
    (sign collab0 cred0 7 "venues/\x7bvenueId\x7d/accounts/\x7baccountId\x7d/orders"
        "private" "POST"
        [("venueId", "trade-public"), ("accountId", "A1"), ("side", "buy"), ("size", "1")]
        none none).toOption.map (fun r => r.body)
      ≠ some (some (collab0.json [("side", "buy"), ("size", "1")])) := by
  constructor
  · decide
  · decide

/-- C2: the error classifier skips classification when no decodable
response exists; raises the classified kind for any error code in the fixed
table regardless of the success flag; otherwise raises the generic venue
error exactly when the success flag is not true; and in particular the
three quoted envelopes classify to InsufficientFunds, the generic error,
and the generic error. -/
theorem handleErrors_classification :
    handleErrors none = Except.ok () ∧
    (∀ (r : Envelope) (e : String) (k : VenueError), r.errorCode = some e →
      exceptions.lookup e = some k → handleErrors (some r) = Except.error k) ∧
    (∀ r : Envelope, r.errorCode.bind (fun e => exceptions.lookup e) = none →
      r.success = some false → handleErrors (some r) = Except.error VenueError.exchangeError) ∧
    (∀ r : Envelope, r.errorCode.bind (fun e => exceptions.lookup e) = none →
      r.success = some true → handleErrors (some r) = Except.ok ()) ∧
    handleErrors (some ⟨some false, some "INSUFFICIENT_FUNDS"⟩)
        = Except.error VenueError.insufficientFunds ∧
    handleErrors (some ⟨some false, some "UNKNOWN_X"⟩)
        = Except.error VenueError.exchangeError ∧
    handleErrors (some ⟨some false, none⟩) = Except.error VenueError.exchangeError := by
  refine ⟨rfl, ?_, ?_, ?_, rfl, rfl, rfl⟩
  · intro r e k he hk
    simp [handleErrors, he, hk]
  · intro r hb hs
    simp [handleErrors, hb, hs]
  · intro r hb hs
    simp [handleErrors, hb, hs]

/-- Witness for C2: a recognized error code (TIME_INVALID) is classified to
its table entry even though the envelope reports success = true. -/
theorem handleErrors_classification_witness :
    handleErrors (some ⟨some true, some "TIME_INVALID"⟩)
      = Except.error VenueError.invalidNonce :=
  handleErrors_classification.2.1 ⟨some true, some "TIME_INVALID"⟩ "TIME_INVALID"
    VenueError.invalidNonce rfl (by decide)

/-- C3: evaluation of the trade normalizer on the quoted public tuple.
Price and amount are the parsed decimals and id, order id and the
maker-taker flag stay unset, and the timestamp is parsed from the fourth
element — but the side slot holds the number produced by applying
`parseFloat` to the string "sell", i.e. NaN, not the string "sell" the
claim (and the source's own shape comment) state. -/
theorem parseTrade_tuple_side_is_nan (c : Collab) :
    parseTrade c [] none
        (RawTrade.tuple "0.03177000" "0.0643501" "sell" "2019-01-27T23:02:04Z")
      = { id := none,
          timestamp := c.parse8601 "2019-01-27T23:02:04Z",
          symbol := none,
          order := none,
          side := JsVal.num none,
          price := some (mkRat 3177 100000),
          amount := some (mkRat 643501 10000000),
          cost := none,
          takerOrMaker := none } := by
  show Trade.mk _ _ _ _ _ _ _ _ _ = _
  congr 1

/-- C5: counterexample. On an entry whose id is "XLM/native" but whose
code field is "BTC", the normalizer's canonical code is derived from the
code field, not from the normalization of the id's leading segment. -/
theorem parseCurrencyEntry_code_counterexample :
    (parseCurrencyEntry collab0
        { id := some "XLM/native", code := some "BTC", displayDecimalsFull := some 7 }).code
      ≠ (some "XLM/native").map (fun i => collab0.commonCurrencyCode (leadingSegment i)) := by
  decide

/-- C5 (amended): for every raw currency entry, the canonical code is the
normalization of the entry's `code` field (which also becomes the stored
venue id), and the precision is the venue's full decimal-digit field. -/
theorem parseCurrencyEntry_fields (c : Collab) (entry : RawCurrency) :
    (parseCurrencyEntry c entry).code = entry.code.map c.commonCurrencyCode ∧
    (parseCurrencyEntry c entry).id = entry.code ∧
    (parseCurrencyEntry c entry).precision = entry.displayDecimalsFull :=
  ⟨rfl, rfl, rfl⟩

/-- C6: for every raw order, the normalized record's remaining field is
exactly the JS difference of its amount and filled fields; in particular,
whenever both parse to rationals a and f, remaining = a - f. -/
theorem parseOrder_remaining_invariant (c : Collab) (market : Option String) (o : RawOrder) :
    (parseOrder c market o).remaining
        = jsSub (parseOrder c market o).amount (parseOrder c market o).filled ∧
    ∀ a f : ℚ, (parseOrder c market o).amount = some a →
      (parseOrder c market o).filled = some f →
      (parseOrder c market o).remaining = some (a - f) := by
  constructor
  · rfl
  · intro a f ha hf
    show jsSub (parseOrder c market o).amount (parseOrder c market o).filled = some (a - f)
    rw [ha, hf]
    rfl

/-- Witness for C6 at an order with filled equal to amount. -/
theorem parseOrder_remaining_invariant_witness :
    (parseOrder collab0 none
        { id := some "o1", placedAt := some "2019-02-01T18:44:21Z", side := some "sell",
          size := some "2.5", sizeFilled := some "2.5", price := some "0.1" }).remaining
      = some (mkRat 25 10 - mkRat 25 10) :=
  (parseOrder_remaining_invariant collab0 none
      { id := some "o1", placedAt := some "2019-02-01T18:44:21Z", side := some "sell",
        size := some "2.5", sizeFilled := some "2.5", price := some "0.1" }).2
    (mkRat 25 10) (mkRat 25 10) (by decide) (by decide)

/-- C7: counterexample. On an order whose size is unparsable (and likewise
on one whose sizeFilled is unparsable), the normalizer does not fail: it
returns a record in which the unparsable field has been silently defaulted
to undefined and remaining is NaN. -/
theorem parseOrder_unparsable_counterexample :
    ((parseOrder collab0 none
        { id := none, placedAt := none, side := none,
          size := some "abc", sizeFilled := some "1.0", price := none }).amount = none ∧
     (parseOrder collab0 none
        { id := none, placedAt := none, side := none,
          size := some "abc", sizeFilled := some "1.0", price := none }).remaining = none) ∧
    ((parseOrder collab0 none
        { id := none, placedAt := none, side := none,
          size := some "1.0", sizeFilled := some "abc", price := none }).filled = none ∧
     (parseOrder collab0 none
        { id := none, placedAt := none, side := none,
          size := some "1.0", sizeFilled := some "abc", price := none }).remaining = none) := by
  decide

/-- C7 (amended): for every raw order, if the size field is unparsable as a
number the normalizer succeeds anyway with amount defaulted to undefined,
and if the sizeFilled field is unparsable it succeeds with filled defaulted
to undefined; in either case remaining is NaN; nothing is clamped to zero
and no error reaches the caller. -/
theorem parseOrder_unparsable_defaults (c : Collab) (market : Option String) (o : RawOrder) :
    (o.size.bind parseDecimal = none →
      (parseOrder c market o).amount = none ∧ (parseOrder c market o).remaining = none) ∧
    (o.sizeFilled.bind parseDecimal = none →
      (parseOrder c market o).filled = none ∧ (parseOrder c market o).remaining = none) := by
  constructor
  · intro h
    refine ⟨h, ?_⟩
    show jsSub (o.size.bind parseDecimal) (o.sizeFilled.bind parseDecimal) = none
    rw [h]
    cases o.sizeFilled.bind parseDecimal <;> rfl
  · intro h
    refine ⟨h, ?_⟩
    show jsSub (o.size.bind parseDecimal) (o.sizeFilled.bind parseDecimal) = none
    rw [h]
    cases o.size.bind parseDecimal <;> rfl

/-- Witness for C7 (amended) at a concrete order whose size and sizeFilled
are both unparsable, discharging the hypothesis of each conjunct. -/
theorem parseOrder_unparsable_defaults_witness :
    ((parseOrder collab0 none
        { id := none, placedAt := none, side := none,
          size := some "-", sizeFilled := some "x7", price := none }).amount = none ∧
     (parseOrder collab0 none
        { id := none, placedAt := none, side := none,
          size := some "-", sizeFilled := some "x7", price := none }).remaining = none) ∧
    ((parseOrder collab0 none
        { id := none, placedAt := none, side := none,
          size := some "-", sizeFilled := some "x7", price := none }).filled = none ∧
     (parseOrder collab0 none
        { id := none, placedAt := none, side := none,
          size := some "-", sizeFilled := some "x7", price := none }).remaining = none) :=
  ⟨(parseOrder_unparsable_defaults collab0 none
      { id := none, placedAt := none, side := none,
        size := some "-", sizeFilled := some "x7", price := none }).1 (by decide),
   (parseOrder_unparsable_defaults collab0 none
      { id := none, placedAt := none, side := none,
        size := some "-", sizeFilled := some "x7", price := none }).2 (by decide)⟩

/-- C8: for every raw balance entry, free = total - available, where total
and available default to 0 when the respective raw field is absent; with
both fields absent, total, available and free are all 0. -/
theorem parseBalanceEntry_free_invariant (c : Collab) (e : RawBalanceEntry) :
    (parseBalanceEntry c e).2.free
        = (parseBalanceEntry c e).2.total - (parseBalanceEntry c e).2.available ∧
    (e.amount = none → e.availableForTrade = none →
      (parseBalanceEntry c e).2.total = 0 ∧ (parseBalanceEntry c e).2.available = 0 ∧
        (parseBalanceEntry c e).2.free = 0) := by
  constructor
  · rfl
  · intro ha hav
    have ht : (parseBalanceEntry c e).2.total = 0 := by
      show (e.amount.bind parseDecimal).getD 0 = 0
      rw [ha]
      rfl
    have hv : (parseBalanceEntry c e).2.available = 0 := by
      show (e.availableForTrade.bind parseDecimal).getD 0 = 0
      rw [hav]
      rfl
    refine ⟨ht, hv, ?_⟩
    have hf : (parseBalanceEntry c e).2.free
        = (parseBalanceEntry c e).2.total - (parseBalanceEntry c e).2.available := rfl
    rw [hf, ht, hv, sub_zero]

/-- Witness for C8 at an entry with both raw fields absent. -/
theorem parseBalanceEntry_free_invariant_witness :
    (parseBalanceEntry collab0
        { assetId := "XLM/native", amount := none, availableForTrade := none }).2.total = 0 ∧
    (parseBalanceEntry collab0
        { assetId := "XLM/native", amount := none, availableForTrade := none }).2.available
        = 0 ∧
    (parseBalanceEntry collab0
        { assetId := "XLM/native", amount := none, availableForTrade := none }).2.free = 0 :=
  (parseBalanceEntry_free_invariant collab0
      { assetId := "XLM/native", amount := none, availableForTrade := none }).2 rfl rfl

/-- C9: enabling sandbox mode does not change the venue used by requests.
With the options from describe, setSandboxMode true leaves the venueId that
every request builder reads at trade-public, stores undefined (not the
sandbox venue) in the main slot it writes, and enabling then disabling also
leaves the request venue at trade-public — the sandbox venue never becomes
the active selection because the keys main, sandbox and backup do not exist
in the venues array while requests read the untouched venueId option. -/
theorem setSandboxMode_venue_selection :
    requestVenueId (setSandboxMode true initialOptions) = "trade-public" ∧
    jsGet (setSandboxMode true initialOptions).venues "main" = none ∧
    jsGet (setSandboxMode true initialOptions).venues "backup" = none ∧
    requestVenueId (setSandboxMode false (setSandboxMode true initialOptions))
      = "trade-public" := by
  decide

end Stronghold
